import Mathlib

/-!
Verification development for the phishing-URL feature-extraction and
risk-decision engine (`ml-service/app/feature_extractor.py`,
`ml-service/app/model_loader.py`, `ml-service/app/main.py`).

The Python code is shallowly embedded: pure string manipulation becomes
functions on `List Char` / `String`, Python numbers become `ℕ`/`ℤ`/`ℚ`
(Shannon entropy, whose value no claim depends on, is kept as an exact
real-number formula), exceptions become `Except`, and the stateful
model-loader becomes explicit state passing.
-/

/-- `1 if b else 0` - Python booleans used as 0/1 feature values. -/
def b2i (b : Bool) : ℕ := if b then 1 else 0

/-- `needle` is a leading chunk of `hay` (character-wise). -/
def listHasPre : List Char → List Char → Bool
  | [], _ => true
  | _ :: _, [] => false
  | a :: as, b :: bs => a == b && listHasPre as bs

/-- Python's `needle in hay` for strings: contiguous-substring containment. -/
def listHasSub : List Char → List Char → Bool
  | n, [] => n.isEmpty
  | n, c :: hs' => listHasPre n (c :: hs') || listHasSub n hs'

/-- Python's `hay.endswith(needle)`. -/
def listHasSuf (n h : List Char) : Bool := listHasPre n.reverse h.reverse

/-- Substring test on `String`s (Python `needle in hay`). -/
def pyIn (needle hay : String) : Bool := listHasSub needle.data hay.data

/-- Python `s.startswith(pre)`. -/
def pyStarts (pre s : String) : Bool := listHasPre pre.data s.data

/-- Python `s.endswith(suf)`. -/
def pyEnds (suf s : String) : Bool := listHasSuf suf.data s.data

/-- Python `s.lower()` (ASCII case folding; the URLs considered are ASCII). -/
def pyLower (s : String) : String := ⟨s.data.map Char.toLower⟩

/-- Non-overlapping left-to-right count of the two-character pattern `//`,
exactly Python's `url.count('//')` for this pattern. -/
def countDoubleSlash : List Char → ℕ
  | '/' :: '/' :: t => 1 + countDoubleSlash t
  | _ :: t => countDoubleSlash t
  | [] => 0

/-- Python `str.split(sep)` for a one-character separator: splitting the
empty string yields `[""]`, adjacent separators yield empty fields. -/
def splitChar (sep : Char) : List Char → List (List Char)
  | [] => [[]]
  | c :: t =>
    if c == sep then [] :: splitChar sep t
    else
      match splitChar sep t with
      | [] => [[c]]
      | h :: r => (c :: h) :: r

/-- Python-level exception classes that the embedded code distinguishes. -/
inductive PyErr where
  | valueError : PyErr
  | runtimeError : PyErr
  | fileNotFound : PyErr
  | indexError : PyErr
  | otherError : PyErr
deriving DecidableEq, Repr

/-- Result of `urllib.parse.urlparse`: the components the extractor reads. -/
structure UrlParts where
  scheme : String
  netloc : String
  path : String
  params : String
  query : String
  fragment : String
deriving DecidableEq, Repr

/-- Characters allowed after the first character of a URL scheme
(`urllib.parse.scheme_chars`). -/
def schemeChar (c : Char) : Bool := c.isAlphanum || c == '+' || c == '-' || c == '.'

/-- `urllib.parse._splitparams`: split `;params` off the last path segment
(off the whole path when it has no `/`). -/
def splitParams (p : List Char) : List Char × List Char :=
  if p.contains ';' then
    if p.contains '/' then
      let afterSeg := (p.reverse.takeWhile (fun c => c != '/')).reverse
      if afterSeg.contains ';' then
        (p.take (p.length - afterSeg.length) ++ afterSeg.takeWhile (fun c => c != ';'),
         (afterSeg.dropWhile (fun c => c != ';')).drop 1)
      else (p, [])
    else (p.takeWhile (fun c => c != ';'), (p.dropWhile (fun c => c != ';')).drop 1)
  else (p, [])

/-- `c` ends the netloc chunk (`urllib.parse._splitnetloc` stops at `/?#`). -/
def netlocStop (c : Char) : Bool := c == '/' || c == '?' || c == '#'

/-- `urllib.parse.urlparse`, restricted to the behaviour the extractor can
observe: scheme detection (first character an ASCII letter, the rest scheme
characters, up to the first `:`), `//`-introduced netloc running to the first
`/?#`, the `ValueError` raised for a netloc containing `[` without `]` or
vice versa ("Invalid IPv6 URL"), fragment split at the first `#`, query split
at the first `?`, and `;params` split off the path.  The control-character
stripping some CPython patch levels perform is omitted: no input considered
here contains such characters. -/
def pyUrlparse (url : String) : Except PyErr UrlParts :=
  let l := url.data
  let schemeRest : List Char × List Char :=
    match l.findIdx? (fun c => c == ':') with
    | some i =>
      if i != 0 && (match l with | c :: _ => c.isAlpha | [] => false)
          && ((l.take i).drop 1).all schemeChar
      then ((l.take i).map Char.toLower, l.drop (i + 1))
      else ([], l)
    | none => ([], l)
  let r1 := schemeRest.2
  let hasNetloc := listHasPre ['/', '/'] r1
  let body := r1.drop 2
  let netloc := if hasNetloc then body.takeWhile (fun c => !netlocStop c) else []
  let r2 := if hasNetloc then body.dropWhile (fun c => !netlocStop c) else r1
  if hasNetloc &&
      ((netloc.contains '[' && !netloc.contains ']') ||
        (netloc.contains ']' && !netloc.contains '[')) then
    .error .valueError
  else
    let r3 := r2.takeWhile (fun c => c != '#')
    let fragment := (r2.dropWhile (fun c => c != '#')).drop 1
    let pathPre := r3.takeWhile (fun c => c != '?')
    let query := (r3.dropWhile (fun c => c != '?')).drop 1
    let pp := splitParams pathPre
    .ok { scheme := ⟨schemeRest.1⟩, netloc := ⟨netloc⟩, path := ⟨pp.1⟩,
          params := ⟨pp.2⟩, query := ⟨query⟩, fragment := ⟨fragment⟩ }

/-- `re` digit class as used by the extractor's IP regex (ASCII digits; the
hosts considered are ASCII). -/
def isDigitChar (c : Char) : Bool := c.isDigit

/-- A run of one to three digits - one `\d{1,3}` group of the IP regex. -/
def digitRun13 (l : List Char) : Bool :=
  l.all isDigitChar && decide (1 ≤ l.length) && decide (l.length ≤ 3)

/-- Deterministic matcher for `\d{1,3}(\.\d{1,3}){n}` anchored at both ends:
consume the maximal digit run, require it to have length 1-3, then expect
`.` and recurse `n` more times.  Backtracking is irrelevant because `.` is
not a digit, so each group is forced to take the whole run. -/
def ipMatchAux : ℕ → List Char → Bool
  | 0, l => digitRun13 l
  | n + 1, l =>
    digitRun13 (l.takeWhile isDigitChar) &&
      (match l.dropWhile isDigitChar with
       | '.' :: t => ipMatchAux n t
       | _ => false)

/-- `re.match(r'^\d{1,3}\.\d{1,3}\.\d{1,3}\.\d{1,3}$', host)` as a total
Boolean matcher (the `$` tolerance for one trailing newline is dropped:
a netloc can never contain a newline by the time it reaches this check). -/
def is_ip_pattern (host : List Char) : Bool := ipMatchAux 3 host

/-- Result of `tldextract.extract`: subdomain / registrable-domain / suffix.
`tldextract` is backed by the public-suffix list, an external data source;
the spec treats structural decomposition as a capability boundary, and none
of the claims depends on the values of the subdomain/suffix features, so the
decomposition function is kept as an explicit parameter of the extractor. -/
structure TldParts where
  subdomain : String
  domain : String
  suffix : String
deriving DecidableEq, Repr

/-- A trivial instantiation of the `tldextract` capability, used to evaluate
the extractor on concrete URLs (the features the claims mention never read
its output). -/
def tldx0 : String → TldParts := fun _ => ⟨"", "", ""⟩

namespace URLFeatureExtractor

/-- `calculate_entropy`: Shannon entropy in bits of the character-frequency
distribution of the string (`-sum p * log2 p` over distinct characters,
0 for the empty string).  Kept as the exact real-number formula; no claim
depends on its value. -/
noncomputable def calculate_entropy (s : String) : ℝ :=
  let l := s.data
  if l.length = 0 then 0
  else
    -((l.dedup.map fun c =>
        let p : ℝ := (l.count c : ℝ) / (l.length : ℝ)
        p * Real.logb 2 p).sum)

/-- The 30-field feature record built by `extract_features`.  Counts and 0/1
flags are `ℕ`, the digit ratio is an exact rational, the entropy a real. -/
structure Features where
  url_length : ℕ
  domain_length : ℕ
  has_https : ℕ
  has_http : ℕ
  num_dots : ℕ
  num_hyphens : ℕ
  num_underscores : ℕ
  num_slashes : ℕ
  num_question_marks : ℕ
  num_equal_signs : ℕ
  num_at_symbols : ℕ
  num_ampersands : ℕ
  num_percent_signs : ℕ
  has_at_symbol : ℕ
  has_double_slash_redirect : ℕ
  num_digits : ℕ
  digit_ratio : ℚ
  subdomain_length : ℕ
  has_subdomain : ℕ
  num_subdomains : ℕ
  path_length : ℕ
  num_path_tokens : ℕ
  has_query_params : ℕ
  num_query_params : ℕ
  is_ip_address : ℕ
  has_port : ℕ
  tld_length : ℕ
  has_suspicious_tld : ℕ
  has_phishing_keyword : ℕ
  url_entropy : ℝ

/-- `suspicious_tlds` (feature_extractor.py line 83). -/
def suspicious_tlds : List String := [".tk", ".ml", ".ga", ".cf", ".gq", ".xyz", ".top"]

/-- `phishing_keywords` (feature_extractor.py lines 101-104). -/
def phishing_keywords : List String :=
  ["login", "signin", "account", "update", "confirm", "verify",
   "secure", "ebay", "paypal", "amazon", "bank", "apple"]

/-- `extract_features` (feature_extractor.py lines 14-110), parameterised by
the `tldextract` capability.  The `urlparse` call computing `domain_length`
(line 29) sits OUTSIDE the `try` block, so a `ValueError` raised there (for
example on a netloc with an unmatched bracket) escapes the function; this is
modelled by the `Except.error` branch.  Inside the `try`, `urlparse` is
called again on the same string - it cannot fail any more - and `tldextract`
is modelled as total, so the `except` branch assigning zero defaults
(lines 86-98) is unreachable and has no counterpart here. -/
noncomputable def extract_features (tldx : String → TldParts) (url : String) :
    Except PyErr Features :=
  match pyUrlparse url with
  | .error e => .error e
  | .ok parsed =>
    let ext := tldx url
    let lowUrl := pyLower url
    let nd : ℕ := (url.data.filter isDigitChar).length
    let ipFlag : ℕ :=
      b2i (is_ip_pattern (parsed.netloc.data.takeWhile (fun c => c != ':')))
    .ok
      { url_length := url.data.length
        domain_length := parsed.netloc.data.length
        has_https := b2i (pyStarts "https://" url)
        has_http := b2i (pyStarts "http://" url)
        num_dots := url.data.count '.'
        num_hyphens := url.data.count '-'
        num_underscores := url.data.count '_'
        num_slashes := url.data.count '/'
        num_question_marks := url.data.count '?'
        num_equal_signs := url.data.count '='
        num_at_symbols := url.data.count '@'
        num_ampersands := url.data.count '&'
        num_percent_signs := url.data.count '%'
        has_at_symbol := b2i (url.data.contains '@')
        has_double_slash_redirect := b2i (decide (countDoubleSlash url.data > 1))
        num_digits := nd
        digit_ratio := if url.data.length > 0 then (nd : ℚ) / (url.data.length : ℚ) else 0
        subdomain_length := ext.subdomain.data.length
        has_subdomain := b2i (ext.subdomain != "")
        num_subdomains :=
          if ext.subdomain != "" then (splitChar '.' ext.subdomain.data).length else 0
        path_length := parsed.path.data.length
        num_path_tokens := (splitChar '/' parsed.path.data).length
        has_query_params := b2i (parsed.query != "")
        num_query_params :=
          if parsed.query != "" then (splitChar '&' parsed.query.data).length else 0
        is_ip_address := ipFlag
        has_port := b2i (parsed.netloc.data.contains ':' && ipFlag == 0)
        tld_length := ext.suffix.data.length
        has_suspicious_tld := b2i (suspicious_tlds.any fun t => pyEnds t url)
        has_phishing_keyword := b2i (phishing_keywords.any fun k => pyIn k lowUrl)
        url_entropy := calculate_entropy url }

/-- `get_feature_names` (feature_extractor.py lines 134-148). -/
def get_feature_names : List String :=
  ["url_length", "domain_length", "has_https", "has_http",
   "num_dots", "num_hyphens", "num_underscores", "num_slashes",
   "num_question_marks", "num_equal_signs", "num_at_symbols",
   "num_ampersands", "num_percent_signs", "has_at_symbol",
   "has_double_slash_redirect", "num_digits", "digit_ratio",
   "subdomain_length", "has_subdomain", "num_subdomains",
   "path_length", "num_path_tokens", "has_query_params",
   "num_query_params", "is_ip_address", "has_port",
   "tld_length", "has_suspicious_tld", "has_phishing_keyword",
   "url_entropy"]

end URLFeatureExtractor

/-- A Python numeric value stored in the features dictionary. -/
inductive FVal where
  | intV : ℤ → FVal
  | ratV : ℚ → FVal
  | realV : ℝ → FVal

namespace URLFeatureExtractor

/-- The features dictionary as the ordered association list its Python
insertion order produces (extract_features lines 28-108). -/
noncomputable def featureList (f : Features) : List (String × FVal) :=
  [("url_length", .intV f.url_length),
   ("domain_length", .intV f.domain_length),
   ("has_https", .intV f.has_https),
   ("has_http", .intV f.has_http),
   ("num_dots", .intV f.num_dots),
   ("num_hyphens", .intV f.num_hyphens),
   ("num_underscores", .intV f.num_underscores),
   ("num_slashes", .intV f.num_slashes),
   ("num_question_marks", .intV f.num_question_marks),
   ("num_equal_signs", .intV f.num_equal_signs),
   ("num_at_symbols", .intV f.num_at_symbols),
   ("num_ampersands", .intV f.num_ampersands),
   ("num_percent_signs", .intV f.num_percent_signs),
   ("has_at_symbol", .intV f.has_at_symbol),
   ("has_double_slash_redirect", .intV f.has_double_slash_redirect),
   ("num_digits", .intV f.num_digits),
   ("digit_ratio", .ratV f.digit_ratio),
   ("subdomain_length", .intV f.subdomain_length),
   ("has_subdomain", .intV f.has_subdomain),
   ("num_subdomains", .intV f.num_subdomains),
   ("path_length", .intV f.path_length),
   ("num_path_tokens", .intV f.num_path_tokens),
   ("has_query_params", .intV f.has_query_params),
   ("num_query_params", .intV f.num_query_params),
   ("is_ip_address", .intV f.is_ip_address),
   ("has_port", .intV f.has_port),
   ("tld_length", .intV f.tld_length),
   ("has_suspicious_tld", .intV f.has_suspicious_tld),
   ("has_phishing_keyword", .intV f.has_phishing_keyword),
   ("url_entropy", .realV f.url_entropy)]

/-- `[[features[name] for name in feature_names]]` (main.py line 155): the
single-row feature matrix handed to the model, in schema order.  Because the
dictionary's insertion order coincides with `get_feature_names` (proved with
claim C1), per-name lookup equals positional projection. -/
noncomputable def feature_vector (f : Features) : List FVal :=
  (featureList f).map Prod.snd

end URLFeatureExtractor

/-- The model artifact's capability set: per-row `predict` /
`predict_proba` on the single-row feature matrix, either of which may raise
(for example a `ValueError` on a feature-count mismatch). -/
structure PyModel where
  predict : List FVal → Except PyErr ℤ
  predict_proba : List FVal → Except PyErr (List ℚ)

/-- The decision variables the engine computes before building the response
(main.py: `prediction_label`, `confidence`, `risk_score`, `message`). -/
structure Decision where
  prediction : String
  confidence : ℚ
  risk_score : ℚ
  message : String
deriving DecidableEq, Repr

/-- Message strings of main.py lines 174-180 and 216. -/
def msgHigh : String :=
  "HIGH RISK: This URL is highly likely to be a phishing attempt. Do not proceed."

def msgMedium : String :=
  "MEDIUM RISK: This URL shows signs of phishing. Proceed with caution."

def msgLow : String :=
  "LOW RISK: This URL may be suspicious. Verify before proceeding."

def msgLegit : String := "This URL appears to be legitimate."

def msgDemo : String := "Demo mode prediction (model not trained yet)"

/-- Python `max` over a nonempty list given as head and tail. -/
def pyMax (q : ℚ) (l : List ℚ) : ℚ := l.foldl max q

/-- Model-path decision computation (main.py lines 160-180), taking the
values returned by `model.predict(...)[0]` and `model.predict_proba(...)[0]`:
`phishing_probability = probabilities[1] if len(probabilities) > 1 else
probabilities[0]` (an empty probability vector raises `IndexError`),
`confidence = max(probabilities)`, `risk_score = phishing_probability * 100`,
`prediction_label = "Phishing" if prediction == 1 else "Benign"`, and the
tiered message. -/
def modelDecision (pred : ℤ) (probs : List ℚ) : Except PyErr Decision :=
  match probs with
  | [] => .error .indexError
  | p0 :: t =>
    let phishing_probability := match t with | [] => p0 | p1 :: _ => p1
    let confidence := pyMax p0 t
    let risk_score := phishing_probability * 100
    let prediction_label := if pred = 1 then "Phishing" else "Benign"
    let message :=
      if prediction_label = "Phishing" then
        if risk_score ≥ 90 then msgHigh
        else if risk_score ≥ 70 then msgMedium
        else msgLow
      else msgLegit
    .ok ⟨prediction_label, confidence, risk_score, message⟩

open URLFeatureExtractor in
/-- `risk_indicators` (main.py lines 198-210): sequential increments over
the six truthiness tests on the features dictionary. -/
def riskIndicators (f : Features) : ℕ :=
  let r0 : ℕ := 0
  let r1 := if f.has_at_symbol ≠ 0 then r0 + 1 else r0
  let r2 := if f.is_ip_address ≠ 0 then r1 + 1 else r1
  let r3 := if f.has_suspicious_tld ≠ 0 then r2 + 1 else r2
  let r4 := if f.has_phishing_keyword ≠ 0 then r3 + 1 else r3
  let r5 := if f.url_length > 75 then r4 + 1 else r4
  if f.num_dots > 4 then r5 + 1 else r5

open URLFeatureExtractor in
/-- Heuristic-path decision (main.py lines 212-216): score, label and fixed
confidence from the indicator count, with the single demo-mode message. -/
def heuristicDecision (f : Features) : Decision :=
  let k := riskIndicators f
  { prediction := if k ≥ 3 then "Phishing" else "Benign"
    confidence := if k ≥ 3 then (0.75 : ℚ) else (0.80 : ℚ)
    risk_score := min (((k : ℚ) / 6) * 100) 100
    message := msgDemo }

/-- Round half to even at `n` decimal places - Python `round(x, n)` on the
exact rational value (the binary-float representation error of the values
rounded by the code is below the rounding granularity for every value these
claims touch). -/
def pyRound (n : ℕ) (q : ℚ) : ℚ :=
  let m : ℚ := q * (10 : ℚ) ^ n
  let fl : ℤ := ⌊m⌋
  let r : ℚ := m - fl
  let k : ℤ :=
    if r < 1 / 2 then fl
    else if r > 1 / 2 then fl + 1
    else if fl % 2 = 0 then fl else fl + 1
  (k : ℚ) / (10 : ℚ) ^ n

open URLFeatureExtractor in
/-- The `/predict` response body (main.py lines 54-62 and 184-225); the
model path rounds confidence to 4 and risk score to 2 decimals, the
heuristic path returns them unrounded. -/
structure Payload where
  url : String
  prediction : String
  confidence : ℚ
  risk_score : ℚ
  features : Features
  message : String

open URLFeatureExtractor in
/-- The heuristic-branch response (main.py lines 218-225). -/
noncomputable def heurPayload (url : String) (f : Features) : Payload :=
  let d := heuristicDecision f
  ⟨url, d.prediction, d.confidence, d.risk_score, f, d.message⟩

/-- An HTTP error response raised through `HTTPException`. -/
inductive HttpErr where
  | httpException : ℕ → HttpErr
deriving DecidableEq, Repr

/-- The outer handlers of `predict_url` (main.py lines 227-232):
`except ValueError` becomes HTTP 400, `except Exception` HTTP 500. -/
def outerHandler (e : PyErr) : HttpErr :=
  match e with
  | .valueError => .httpException 400
  | _ => .httpException 500

open URLFeatureExtractor in
/-- `predict_url` (main.py lines 135-232), parameterised by the `tldextract`
capability and the loader state (`none` = no artifact held, in which case
`get_model` raises `RuntimeError`).  The inner `try` catches exactly
`RuntimeError` and answers with the heuristic payload; every other exception
escapes to the outer handlers. -/
noncomputable def predict_url (tldx : String → TldParts) (loader : Option PyModel)
    (url : String) : Except HttpErr Payload :=
  match URLFeatureExtractor.extract_features tldx url with
  | .error e => .error (outerHandler e)
  | .ok f =>
    let vec := URLFeatureExtractor.feature_vector f
    match loader with
    | none => .ok (heurPayload url f)
    | some m =>
      match m.predict vec with
      | .error .runtimeError => .ok (heurPayload url f)
      | .error e => .error (outerHandler e)
      | .ok pred =>
        match m.predict_proba vec with
        | .error .runtimeError => .ok (heurPayload url f)
        | .error e => .error (outerHandler e)
        | .ok probs =>
          match modelDecision pred probs with
          | .error .runtimeError => .ok (heurPayload url f)
          | .error e => .error (outerHandler e)
          | .ok d =>
            .ok ⟨url, d.prediction, pyRound 4 d.confidence, pyRound 2 d.risk_score,
                 f, d.message⟩

/-- The six demo-mode rules of `scan_url_direct` (main.py lines 299-306):
brand-plus-suspicious-suffix combination, `verify` with a length threshold,
literal `login.php`, `confirm` with a hyphen-count threshold, a dot-count
threshold, and `any(char in url for char in ['0', '1'] * 3)` - which tests
only the characters `'0'` and `'1'`, three times over. -/
def sixRules (url : String) : Bool :=
  let low := pyLower url
  (pyIn "secure-" low && (pyIn ".tk" url || pyIn ".ml" url)) ||
  (pyIn "verify" low && decide (url.data.length > 50)) ||
  pyIn "login.php" low ||
  (pyIn "confirm" low && decide (url.data.count '-' > 3)) ||
  decide (url.data.count '.' > 3) ||
  (['0', '1', '0', '1', '0', '1'].any fun c => url.data.contains c)

/-- The fallback policy of `scan_url_direct`'s `except` handler
(main.py line 324): `'phishing' in url.lower() or 'secure-' in url.lower()`. -/
def fallbackRule (url : String) : Bool :=
  pyIn "phishing" (pyLower url) || pyIn "secure-" (pyLower url)

/-- The decision fields of the `/api/v1/scan-url` JSON response; the
response-latency measurement, correlation id, timestamp and cache flag are
transport-layer concerns the spec excludes, and are omitted. -/
inductive ScanOut where
  | payload : String → String → ℚ → String → ScanOut
  | errorPayload : String → ScanOut
deriving DecidableEq, Repr

open URLFeatureExtractor in
/-- `scan_url_direct` (main.py lines 265-355).  The flow: prefix
validation, feature extraction (a `ValueError` there is swallowed by the
outer handler into an error payload), then the inner `try`: `get_model`
raises `RuntimeError` when no artifact is held, so control reaches the
`except` fallback policy; when an artifact is held, `get_model` returns it
and - because `get_model` raises rather than returning `None`
(model_loader.py lines 54-58) - the `if model is None` demo branch with the
six-rule policy can never be entered, which the embedding renders as the
always-false test `False`.  Any model-branch exception (failed predict,
failed predict_proba, `IndexError` on an empty probability vector) is caught
by the same `except` and degrades to the fallback policy. -/
noncomputable def scan_url_direct (tldx : String → TldParts)
    (loader : Option PyModel) (url : String) : ScanOut :=
  if !(pyStarts "http://" url || pyStarts "https://" url) then
    .errorPayload "URL must start with http:// or https://"
  else
    match URLFeatureExtractor.extract_features tldx url with
    | .error _ => .errorPayload "Analysis failed"
    | .ok f =>
      let fallback : String × ℚ :=
        (if fallbackRule url then "Phishing" else "Benign", (0.75 : ℚ))
      let decided : String × ℚ :=
        match loader with
        | none => fallback
        | some m =>
          if False then
            -- dead `if model is None` branch (six-rule demo policy)
            (if sixRules url then "Phishing" else "Benign",
             if sixRules url then (0.85 : ℚ) else (0.92 : ℚ))
          else
            match m.predict (URLFeatureExtractor.feature_vector f) with
            | .error _ => fallback
            | .ok pred =>
              match m.predict_proba (URLFeatureExtractor.feature_vector f) with
              | .error _ => fallback
              | .ok [] => fallback  -- IndexError from probabilities[...] is caught
              | .ok (p0 :: t) =>
                (if pred = 1 then "Phishing" else "Benign", pyMax p0 t)
      let message := if decided.1 = "Phishing" then msgHigh else msgLegit
      .payload url decided.1 (pyRound 4 decided.2) message

namespace ModelLoader

/-- The storage location the loader reads: no file, a file whose unpickling
fails, or a well-formed artifact. -/
inductive PyStorage (α : Type u) where
  | absent : PyStorage α
  | corrupt : PyStorage α
  | good : α → PyStorage α

/-- `load_model` (model_loader.py lines 25-52) as a function of the cached
`_model` attribute and the storage; the third component counts storage
accesses (the `os.path.exists` check and the `open`/`pickle.load` read).
If an artifact is already held it is returned with no storage access;
otherwise a missing file raises `FileNotFoundError`, a failed unpickling
re-raises, and a successful read caches and returns the artifact. -/
def load_model {α : Type u} (state : Option α) (st : PyStorage α) :
    Except PyErr α × Option α × ℕ :=
  match state with
  | some m => (.ok m, some m, 0)
  | none =>
    match st with
    | .absent => (.error .fileNotFound, none, 1)
    | .corrupt => (.error .otherError, none, 2)
    | .good a => (.ok a, some a, 2)

/-- `get_model` (model_loader.py lines 54-58): raises `RuntimeError` when no
model is held. -/
def get_model {α : Type u} (state : Option α) : Except PyErr α :=
  match state with
  | none => .error .runtimeError
  | some m => .ok m

/-- `predict` (model_loader.py lines 60-71): `get_model` then the model's
own predict. -/
def predict (state : Option PyModel) (features : List FVal) : Except PyErr ℤ :=
  match get_model state with
  | .error e => .error e
  | .ok m => m.predict features

/-- `predict_proba` (model_loader.py lines 73-84). -/
def predict_proba (state : Option PyModel) (features : List FVal) :
    Except PyErr (List ℚ) :=
  match get_model state with
  | .error e => .error e
  | .ok m => m.predict_proba features

/-- The interpreter-level state needed to express the singleton pattern of
`__new__` (model_loader.py lines 14-23): the class attribute `_instance`
(an optional object address), an allocation counter, and each object's
`_model` attribute. -/
structure World (α : Type u) where
  instanceAddr : Option ℕ
  nextAddr : ℕ
  attrModel : ℕ → Option α

/-- `ModelLoader()` - `__new__` returns the cached instance when one
exists, otherwise allocates one and caches it. -/
def new {α : Type u} (w : World α) : World α × ℕ :=
  match w.instanceAddr with
  | some r => (w, r)
  | none =>
    ({ w with instanceAddr := some w.nextAddr, nextAddr := w.nextAddr + 1 },
     w.nextAddr)

/-- The state effect of a successful `load_model` on the object at address
`r`: its `_model` attribute now holds the artifact. -/
def loadAt {α : Type u} (w : World α) (r : ℕ) (a : α) : World α :=
  { w with attrModel := fun x => if x = r then some a else w.attrModel x }

/-- `get_model` called through the handle at address `r`. -/
def getAt {α : Type u} (w : World α) (r : ℕ) : Except PyErr α :=
  match w.attrModel r with
  | none => .error .runtimeError
  | some m => .ok m

end ModelLoader

open URLFeatureExtractor in
/-- An all-zero feature record, used only as the junk value of `extractOr`
on inputs where extraction raises. -/
noncomputable def emptyFeatures : Features :=
  ⟨0, 0, 0, 0, 0, 0, 0, 0, 0, 0, 0, 0, 0, 0, 0, 0, 0, 0, 0, 0, 0, 0, 0, 0, 0, 0, 0, 0, 0, 0⟩

open URLFeatureExtractor in
/-- The feature record of a URL on which extraction succeeds (used to name
that record in concrete statements). -/
noncomputable def extractOr (tldx : String → TldParts) (url : String) : Features :=
  match URLFeatureExtractor.extract_features tldx url with
  | .ok f => f
  | .error _ => emptyFeatures

/-- The parse result of a URL on which `urlparse` succeeds. -/
def parseOr (url : String) : UrlParts :=
  match pyUrlparse url with
  | .ok p => p
  | .error _ => ⟨"", "", "", "", "", ""⟩

/-- A stub classifier returning a fixed class and probability vector. -/
def stubModel (pred : ℤ) (probs : List ℚ) : PyModel :=
  ⟨fun _ => .ok pred, fun _ => .ok probs⟩

/-- A stub classifier whose prediction call raises the given exception -
for example `ValueError` for a feature-count mismatch. -/
def failingModel (e : PyErr) : PyModel :=
  ⟨fun _ => .error e, fun _ => .error e⟩

/-! ### Properties of character-splitting and the IP pattern -/

theorem splitChar_ne_nil (sep : Char) (l : List Char) : splitChar sep l ≠ [] := by
  cases l with
  | nil => simp [splitChar]
  | cons c t =>
    simp only [splitChar]
    split
    · simp
    · split <;> simp

theorem splitChar_no_sep (sep : Char) (l : List Char) (h : sep ∉ l) :
    splitChar sep l = [l] := by
  induction l with
  | nil => rfl
  | cons c t ih =>
    simp only [List.mem_cons, not_or] at h
    simp only [splitChar]
    rw [if_neg (by simp only [beq_iff_eq]; exact fun hc => h.1 hc.symm)]
    rw [ih h.2]

theorem splitChar_append (sep : Char) (a : List Char) (ha : sep ∉ a) :
    ∀ l' h r, splitChar sep l' = h :: r → splitChar sep (a ++ l') = (a ++ h) :: r := by
  induction a with
  | nil => intro l' h r hs; simpa using hs
  | cons c a' ih =>
    intro l' h r hs
    simp only [List.mem_cons, not_or] at ha
    simp only [List.cons_append, splitChar]
    rw [if_neg (by simp only [beq_iff_eq]; exact fun hc => ha.1 hc.symm)]
    simp only [List.append_eq]
    rw [ih ha.2 l' h r hs]

theorem splitChar_cons_sep (sep : Char) (t : List Char) :
    splitChar sep (sep :: t) = [] :: splitChar sep t := by
  simp [splitChar]

theorem splitChar_length (sep : Char) (l : List Char) :
    (splitChar sep l).length = l.count sep + 1 := by
  induction l with
  | nil => simp [splitChar]
  | cons c t ih =>
    simp only [splitChar]
    by_cases hc : c = sep
    · subst hc; simp [ih, List.count_cons]
    · rw [if_neg (by simpa using hc)]
      obtain ⟨h1, r1, hs⟩ : ∃ h1 r1, splitChar sep t = h1 :: r1 := by
        cases h : splitChar sep t with
        | nil => exact absurd h (splitChar_ne_nil _ _)
        | cons a b => exact ⟨a, b, rfl⟩
      rw [hs]
      rw [hs] at ih
      simp only [List.length_cons] at ih ⊢
      simp [List.count_cons, hc, ih]

theorem dropWhile_head_false {p : Char → Bool} {l : List Char} {c : Char} {t : List Char}
    (h : l.dropWhile p = c :: t) : p c = false := by
  induction l with
  | nil => simp [List.dropWhile] at h
  | cons a l' ih =>
    rw [List.dropWhile_cons] at h
    by_cases hp : p a = true
    · rw [if_pos hp] at h; exact ih h
    · rw [if_neg hp] at h
      cases h; simpa using hp

theorem no_dot_of_all_digit {l : List Char} (h : l.all isDigitChar = true) : '.' ∉ l := by
  intro hm
  have := List.all_eq_true.mp h '.' hm
  simp [isDigitChar] at this

/-- The regex automaton for `n + 1` dot-separated groups accepts exactly the
strings that split on `.` into `n + 1` runs of one to three digits. -/
theorem ipMatchAux_iff (n : ℕ) : ∀ l : List Char,
    ipMatchAux n l = true ↔
      ((splitChar '.' l).length = n + 1 ∧ ∀ p ∈ splitChar '.' l, digitRun13 p = true) := by
  induction n with
  | zero =>
    intro l
    by_cases hc : '.' ∈ l
    · constructor
      · intro h
        exfalso
        simp only [ipMatchAux, digitRun13, Bool.and_eq_true, decide_eq_true_eq,
          List.all_eq_true] at h
        have := h.1.1 '.' hc
        simp [isDigitChar] at this
      · intro ⟨hlen, _⟩
        rw [splitChar_length] at hlen
        have : l.count '.' = 0 := by omega
        rw [List.count_eq_zero] at this
        exact absurd hc this
    · rw [splitChar_no_sep '.' l hc]
      simp [ipMatchAux]
  | succ m ih =>
    intro l
    have hsplit : l.takeWhile isDigitChar ++ l.dropWhile isDigitChar = l :=
      List.takeWhile_append_dropWhile isDigitChar l
    have hrunall : (l.takeWhile isDigitChar).all isDigitChar = true :=
      List.all_eq_true.mpr fun c hm => List.mem_takeWhile_imp hm
    have hrun_nodot : '.' ∉ l.takeWhile isDigitChar := no_dot_of_all_digit hrunall
    rcases hdrop : l.dropWhile isDigitChar with _ | ⟨r, t⟩
    · rw [hdrop, List.append_nil] at hsplit
      have hnodot : '.' ∉ l := hsplit ▸ hrun_nodot
      rw [splitChar_no_sep '.' l hnodot]
      simp only [ipMatchAux, hdrop]
      simp
    · have hrfalse : isDigitChar r = false := dropWhile_head_false hdrop
      by_cases hr : r = '.'
      · subst hr
        have hl : l.takeWhile isDigitChar ++ '.' :: t = l := by rw [← hdrop]; exact hsplit
        have hsc : splitChar '.' l = l.takeWhile isDigitChar :: splitChar '.' t := by
          conv_lhs => rw [← hl]
          have := splitChar_append '.' (l.takeWhile isDigitChar) hrun_nodot
            ('.' :: t) [] (splitChar '.' t) (splitChar_cons_sep '.' t)
          simpa using this
        rw [hsc]
        simp only [ipMatchAux, hdrop, Bool.and_eq_true, List.length_cons,
          List.forall_mem_cons]
        rw [ih t]
        constructor
        · rintro ⟨h1, h2, h3⟩
          exact ⟨by omega, h1, h3⟩
        · rintro ⟨h1, h2, h3⟩
          exact ⟨h2, by omega, h3⟩
      · obtain ⟨h1, r1, hs⟩ : ∃ h1 r1, splitChar '.' t = h1 :: r1 := by
          cases h : splitChar '.' t with
          | nil => exact absurd h (splitChar_ne_nil _ _)
          | cons a b => exact ⟨a, b, rfl⟩
        have hsrt : splitChar '.' (r :: t) = (r :: h1) :: r1 := by
          simp only [splitChar]
          rw [if_neg (by simpa using hr), hs]
        have hl : l.takeWhile isDigitChar ++ r :: t = l := by rw [← hdrop]; exact hsplit
        have hsc : splitChar '.' l = (l.takeWhile isDigitChar ++ r :: h1) :: r1 := by
          conv_lhs => rw [← hl]
          exact splitChar_append '.' (l.takeWhile isDigitChar) hrun_nodot
            (r :: t) (r :: h1) r1 hsrt
        rw [hsc]
        constructor
        · intro h
          exfalso
          simp only [ipMatchAux, hdrop, Bool.and_eq_true] at h
          rcases h with ⟨-, h⟩
          split at h
          · rename_i heq
            cases heq
            exact hr rfl
          · exact absurd h (by simp)
        · rintro ⟨-, hall⟩
          exfalso
          have := hall (l.takeWhile isDigitChar ++ r :: h1) (by simp)
          simp only [digitRun13, Bool.and_eq_true, List.all_eq_true] at this
          have hrd := this.1.1 r (by simp)
          rw [hrfalse] at hrd
          exact Bool.false_ne_true hrd

/-- The claim's reading of the IP test, written independently of the regex
automaton: the host splits on `.` into exactly four fields, each a run of
one to three decimal digits - with no octet range validation. -/
def fourDotRuns (l : List Char) : Bool :=
  match splitChar '.' l with
  | [a, b, c, d] => digitRun13 a && digitRun13 b && digitRun13 c && digitRun13 d
  | _ => false

theorem fourDotRuns_iff (l : List Char) :
    fourDotRuns l = true ↔
      ((splitChar '.' l).length = 3 + 1 ∧ ∀ p ∈ splitChar '.' l, digitRun13 p = true) := by
  unfold fourDotRuns
  rcases hs : splitChar '.' l with _ | ⟨a, _ | ⟨b, _ | ⟨c, _ | ⟨d, _ | ⟨e, rest⟩⟩⟩⟩⟩ <;>
    simp [List.forall_mem_cons, and_assoc]

theorem is_ip_pattern_eq_fourDotRuns (l : List Char) : is_ip_pattern l = fourDotRuns l := by
  have h1 := ipMatchAux_iff 3 l
  have h2 := fourDotRuns_iff l
  have h3 : is_ip_pattern l = true ↔ fourDotRuns l = true := by
    unfold is_ip_pattern
    rw [h1, h2]
  cases hip : is_ip_pattern l <;> cases hfr : fourDotRuns l <;> simp_all

/-- `pyRound` is the identity on values already representable at the given
number of decimal places. -/
theorem pyRound_eq_self (n : ℕ) (q : ℚ) (z : ℤ) (hz : q * (10 : ℚ) ^ n = (z : ℚ)) :
    pyRound n q = q := by
  unfold pyRound
  dsimp only
  rw [hz, Int.floor_intCast]
  simp only [sub_self]
  rw [if_pos (by norm_num)]
  have h10 : ((10 : ℚ) ^ n) ≠ 0 := by positivity
  field_simp at hz ⊢
  linarith [hz]

/-! ## Claims -/

/-- C1 (code bug): `extract_features` is claimed to terminate without
exception on every string and return exactly the 30 fixed keys, degrading to
zero defaults when decomposition fails.  The 30-key part holds for every
record it returns, but the `urlparse` call computing `domain_length`
(line 29) is outside the `try`, so on `"http://["` the `ValueError`
("Invalid IPv6 URL") escapes instead of yielding defaults. -/
theorem C1_extract_raises_on_bad_bracket :
    (∀ tldx : String → TldParts,
      URLFeatureExtractor.extract_features tldx "http://[" = .error .valueError)
    ∧ (∀ f : URLFeatureExtractor.Features,
        (URLFeatureExtractor.featureList f).map Prod.fst =
          URLFeatureExtractor.get_feature_names) :=
  ⟨fun _ => rfl, fun _ => rfl⟩

/-- C6 (confirmed): the IP feature's test is a pattern-only match - it
accepts exactly the hosts that split on `.` into four runs of one to three
decimal digits, with no octet range validation; `192.168.1.1` matches,
`example.com` does not, and `999.999.999.999` matches. -/
theorem C6_ip_pattern_only_match :
    (∀ host : List Char, is_ip_pattern host = fourDotRuns host)
    ∧ is_ip_pattern "192.168.1.1".data = true
    ∧ is_ip_pattern "example.com".data = false
    ∧ is_ip_pattern "999.999.999.999".data = true :=
  ⟨is_ip_pattern_eq_fourDotRuns, by decide, by decide, by decide⟩

open URLFeatureExtractor in
/-- C4 (confirmed): on the heuristic path the decision is determined by the
count of the six binary signals - the sequentially incremented
`risk_indicators` equals the sum of the six indicator values, risk score is
`(count / 6) * 100` capped at 100, the label is Phishing exactly when the
count is at least 3, confidence is 0.75 for Phishing and 0.80 for Benign -
and `"http://192.168.1.1/paypal-login-verify.tk"` hits at least three
signals and is labelled Phishing (shown end to end through `predict_url`
with no model loaded). -/
theorem C4_heuristic_six_signals :
    (∀ f : Features,
      riskIndicators f =
        (if f.has_at_symbol ≠ 0 then 1 else 0) + (if f.is_ip_address ≠ 0 then 1 else 0) +
        (if f.has_suspicious_tld ≠ 0 then 1 else 0) +
        (if f.has_phishing_keyword ≠ 0 then 1 else 0) +
        (if f.url_length > 75 then 1 else 0) + (if f.num_dots > 4 then 1 else 0)
      ∧ (heuristicDecision f).risk_score = min (((riskIndicators f : ℚ) / 6) * 100) 100
      ∧ ((heuristicDecision f).prediction = "Phishing" ↔ 3 ≤ riskIndicators f)
      ∧ (heuristicDecision f).confidence =
          (if 3 ≤ riskIndicators f then (0.75 : ℚ) else (0.80 : ℚ)))
    ∧ 3 ≤ riskIndicators (extractOr tldx0 "http://192.168.1.1/paypal-login-verify.tk")
    ∧ predict_url tldx0 none "http://192.168.1.1/paypal-login-verify.tk" =
        .ok (heurPayload "http://192.168.1.1/paypal-login-verify.tk"
          (extractOr tldx0 "http://192.168.1.1/paypal-login-verify.tk"))
    ∧ (heurPayload "http://192.168.1.1/paypal-login-verify.tk"
        (extractOr tldx0 "http://192.168.1.1/paypal-login-verify.tk")).prediction =
        "Phishing" := by
  refine ⟨fun f => ⟨?_, rfl, ?_, ?_⟩, by decide, rfl, by decide⟩
  · unfold riskIndicators
    dsimp only
    split_ifs <;> omega
  · unfold heuristicDecision
    dsimp only
    constructor
    · intro h
      by_contra hk
      rw [if_neg (by omega)] at h
      exact absurd h (by decide)
    · intro h
      rw [if_pos (by omega)]
  · rfl

open URLFeatureExtractor in
/-- C10 (confirmed): the heuristic indicator count is at most 6, so the risk
score equals `count * 100 / 6` uncapped - the `min(..., 100)` never bites -
lies in `[0, 100]`, and only takes the seven values `k * 100 / 6` for
`k ≤ 6`. -/
theorem C10_heuristic_score_range :
    ∀ f : Features,
      riskIndicators f ≤ 6
      ∧ (heuristicDecision f).risk_score = (riskIndicators f : ℚ) * 100 / 6
      ∧ 0 ≤ (heuristicDecision f).risk_score
      ∧ (heuristicDecision f).risk_score ≤ 100
      ∧ ∃ k : ℕ, k ≤ 6 ∧ (heuristicDecision f).risk_score = (k : ℚ) * 100 / 6 := by
  intro f
  have h6 : riskIndicators f ≤ 6 := by
    unfold riskIndicators
    dsimp only
    split_ifs <;> omega
  have hq : (riskIndicators f : ℚ) ≤ 6 := by exact_mod_cast h6
  have hrs : (heuristicDecision f).risk_score = (riskIndicators f : ℚ) * 100 / 6 := by
    show min (((riskIndicators f : ℚ) / 6) * 100) 100 = (riskIndicators f : ℚ) * 100 / 6
    rw [min_eq_left (by linarith)]
    ring
  refine ⟨h6, hrs, ?_, ?_, riskIndicators f, h6, hrs⟩
  · rw [hrs]; positivity
  · rw [hrs]; linarith

/-- C3 (confirmed): on the model path, for every (nonempty) probability
vector the confidence is its maximum entry, the risk score is the
phishing-class entry (index 1, or the single entry reused) times 100, and
the label is Phishing exactly when the predicted class is 1; the stub vector
`[0.1, 0.9]` with class 1 yields Phishing / 0.9 / 90.0 / the high-risk
message. -/
theorem C3_model_path_arithmetic :
    (∀ (pred : ℤ) (p0 : ℚ) (t : List ℚ) (d : Decision),
      modelDecision pred (p0 :: t) = .ok d →
        d.confidence = pyMax p0 t
        ∧ d.risk_score = (match t with | [] => p0 | p1 :: _ => p1) * 100
        ∧ (d.prediction = "Phishing" ↔ pred = 1))
    ∧ modelDecision 1 [1 / 10, 9 / 10] = .ok ⟨"Phishing", 9 / 10, 90, msgHigh⟩ := by
  refine ⟨?_, by simp only [modelDecision]; norm_num [pyMax]⟩
  intro pred p0 t d h
  simp only [modelDecision] at h
  injection h with h'
  subst h'
  refine ⟨rfl, rfl, ?_⟩
  dsimp only
  by_cases hp : pred = 1
  · rw [if_pos hp]
    simp [hp]
  · rw [if_neg hp]
    constructor
    · intro hc; exact absurd hc (by decide)
    · intro hc; exact absurd hc hp

/-- Witness for C3: the general statement applied to the stub output. -/
theorem C3_model_path_arithmetic_witness :
    (Decision.mk "Phishing" (9 / 10) 90 msgHigh).confidence = pyMax (1 / 10) [9 / 10]
    ∧ (Decision.mk "Phishing" (9 / 10) 90 msgHigh).risk_score =
        (match [(9 : ℚ) / 10] with | [] => (1 : ℚ) / 10 | p1 :: _ => p1) * 100
    ∧ ((Decision.mk "Phishing" (9 / 10) 90 msgHigh).prediction = "Phishing" ↔ (1 : ℤ) = 1) :=
  C3_model_path_arithmetic.1 1 (1 / 10) [9 / 10] ⟨"Phishing", 9 / 10, 90, msgHigh⟩
    (by simp only [modelDecision]; norm_num [pyMax])

open URLFeatureExtractor in
/-- C2 counterexample: with a loaded model whose prediction call raises
`ValueError` (the feature-count-mismatch exception class), the request fails
with HTTP 400 instead of returning the heuristic payload - the inner
handler catches only `RuntimeError`. -/
theorem C2_prediction_failure_counterexample :
    predict_url tldx0 (some (failingModel .valueError)) "http://example.com" =
      .error (.httpException 400) := rfl

open URLFeatureExtractor in
/-- C2 amended (corrected): only a `RuntimeError` raised by the prediction
call is caught at the call boundary and answered with the heuristic payload;
a `ValueError` (e.g. feature-count mismatch) propagates to the outer
handlers and fails the request with HTTP 400, any other exception with
HTTP 500. -/
theorem C2_amended_runtime_error_only :
    ∀ (tldx : String → TldParts) (m : PyModel) (url : String) (f : Features),
      URLFeatureExtractor.extract_features tldx url = .ok f →
        (m.predict (feature_vector f) = .error .runtimeError →
          predict_url tldx (some m) url = .ok (heurPayload url f))
        ∧ (m.predict (feature_vector f) = .error .valueError →
          predict_url tldx (some m) url = .error (.httpException 400))
        ∧ (m.predict (feature_vector f) = .error .indexError →
          predict_url tldx (some m) url = .error (.httpException 500))
        ∧ (m.predict (feature_vector f) = .error .otherError →
          predict_url tldx (some m) url = .error (.httpException 500)) := by
  intro tldx m url f hf
  refine ⟨?_, ?_, ?_, ?_⟩ <;>
    · intro hp
      unfold predict_url
      rw [hf]
      dsimp only
      rw [hp] <;> rfl

open URLFeatureExtractor in
/-- Witness for C2's amended statement: a stub model raising `RuntimeError`
at prediction time produces the heuristic payload. -/
theorem C2_amended_runtime_error_only_witness :
    predict_url tldx0 (some (failingModel .runtimeError)) "http://example.com" =
      .ok (heurPayload "http://example.com" (extractOr tldx0 "http://example.com")) :=
  (C2_amended_runtime_error_only tldx0 (failingModel .runtimeError) "http://example.com"
    (extractOr tldx0 "http://example.com") rfl).1 rfl

open URLFeatureExtractor in
/-- C7 (confirmed): whenever structural decomposition succeeds, an IP-literal
host forces `has_port = 0` even with a colon in the authority, and
`has_port = 1` only when the authority contains `:` and the host is not
classified as an IP literal. -/
theorem C7_port_excluded_for_ip :
    ∀ (tldx : String → TldParts) (url : String) (parsed : UrlParts) (f : Features),
      pyUrlparse url = .ok parsed →
      URLFeatureExtractor.extract_features tldx url = .ok f →
        (f.is_ip_address = 1 → f.has_port = 0)
        ∧ (f.has_port = 1 →
            parsed.netloc.data.contains ':' = true ∧ f.is_ip_address = 0) := by
  intro tldx url parsed f hp hf
  unfold URLFeatureExtractor.extract_features at hf
  rw [hp] at hf
  injection hf with hf'
  subst hf'
  dsimp only
  cases hip : is_ip_pattern (parsed.netloc.data.takeWhile fun c => c != ':')
  · constructor
    · intro h; exact absurd h (by decide)
    · intro h
      cases hcol : parsed.netloc.data.contains ':'
      · rw [hcol] at h
        exact absurd h (by decide)
      · exact ⟨rfl, rfl⟩
  · constructor
    · intro _
      simp [b2i]
    · intro h
      simp [b2i] at h

open URLFeatureExtractor in
/-- Witness for C7: `http://192.168.1.1:8080/x` has a colon in its
authority and an IP-literal host, and gets `has_port = 0`. -/
theorem C7_port_excluded_for_ip_witness :
    (extractOr tldx0 "http://192.168.1.1:8080/x").is_ip_address = 1
    ∧ (extractOr tldx0 "http://192.168.1.1:8080/x").has_port = 0 := by
  have h := C7_port_excluded_for_ip tldx0 "http://192.168.1.1:8080/x"
    (parseOr "http://192.168.1.1:8080/x")
    (extractOr tldx0 "http://192.168.1.1:8080/x") rfl rfl
  exact ⟨by decide, h.1 (by decide)⟩

/-- C5 (confirmed): `get_model` (and hence `predict` / `predict_proba`)
before any load raises the `RuntimeError` not-loaded condition, distinct
from the `FileNotFoundError` a load against empty storage raises; and a
load while an artifact is held performs no storage access and returns the
cached artifact, as a first-load-then-second-load run shows. -/
theorem C5_loader_lifecycle :
    ∀ (α : Type) (a : α) (st st2 : ModelLoader.PyStorage α) (v : List FVal),
      ModelLoader.get_model (none : Option α) = .error .runtimeError
      ∧ ModelLoader.predict none v = .error .runtimeError
      ∧ ModelLoader.predict_proba none v = .error .runtimeError
      ∧ ModelLoader.load_model (none : Option α) .absent = (.error .fileNotFound, none, 1)
      ∧ (PyErr.runtimeError == PyErr.fileNotFound) = false
      ∧ ModelLoader.load_model (some a) st = (.ok a, some a, 0)
      ∧ ModelLoader.load_model (none : Option α) (.good a) = (.ok a, some a, 2)
      ∧ ModelLoader.load_model
          (ModelLoader.load_model (none : Option α) (.good a)).2.1 st2 =
          (.ok a, some a, 0) := by
  intro α a st st2 v
  exact ⟨rfl, rfl, rfl, rfl, rfl, rfl, rfl, rfl⟩

/-- C9 (confirmed): `ModelLoader()` always returns the one cached instance,
so after a load through one handle, `get_model` through a freshly
constructed handle (as the health and stats endpoints do) returns the same
loaded artifact instead of raising the not-loaded condition. -/
theorem C9_singleton_shared_state :
    ∀ (α : Type) (w : ModelLoader.World α) (a : α),
      (ModelLoader.new (ModelLoader.new w).1).2 = (ModelLoader.new w).2
      ∧ (ModelLoader.new
          (ModelLoader.loadAt (ModelLoader.new w).1 (ModelLoader.new w).2 a)).2 =
          (ModelLoader.new w).2
      ∧ ModelLoader.getAt
          (ModelLoader.new
            (ModelLoader.loadAt (ModelLoader.new w).1 (ModelLoader.new w).2 a)).1
          (ModelLoader.new
            (ModelLoader.loadAt (ModelLoader.new w).1 (ModelLoader.new w).2 a)).2 =
          .ok a := by
  intro α w a
  refine ⟨?_, ?_, ?_⟩ <;>
    cases h : w.instanceAddr <;>
      simp [ModelLoader.new, ModelLoader.loadAt, ModelLoader.getAt, h]

open URLFeatureExtractor in
/-- C8 (code bug): the six-rule demo policy of `scan_url_direct` is dead
code - with no model loaded, `get_model` raises `RuntimeError` instead of
returning `None`, so the `except` fallback (`'phishing' or 'secure-'`
substring test) decides.  On `http://login.php.com` the six rules say
Phishing (rule 3: literal `login.php`), but the endpoint answers Benign with
confidence 0.75; the primary six-signal heuristic also answers Benign on
the same URL, so the two rule sets are indeed distinct policies. -/
theorem C8_six_rule_branch_dead :
    sixRules "http://login.php.com" = true
    ∧ scan_url_direct tldx0 none "http://login.php.com" =
        .payload "http://login.php.com" "Benign" (3 / 4) msgLegit
    ∧ fallbackRule "http://login.php.com" = false
    ∧ (heuristicDecision (extractOr tldx0 "http://login.php.com")).prediction =
        "Benign" := by
  have h1 : scan_url_direct tldx0 none "http://login.php.com" =
      .payload "http://login.php.com" "Benign" (pyRound 4 (0.75 : ℚ)) msgLegit := rfl
  have h2 : pyRound 4 (0.75 : ℚ) = 3 / 4 := by
    rw [pyRound_eq_self 4 (0.75 : ℚ) 7500 (by norm_num)]
    norm_num
  rw [h2] at h1
  exact ⟨by decide, h1, by decide, by decide⟩
